import Mathlib

/-!
A shallow embedding of the xGen Animated Maps baking core
(src/xgenanimatedmaps.py), together with theorems checking the
natural-language specification against the code.

Conventions of the embedding:
* Python ints are `Int`, Python strings are `String`, Python lists are `List`.
* Python 2 `range(a, b)` returns a list; it is embedded as `pyRange`.
* External Maya / xGen / file-system collaborators (`cmds`, `xg`, `os.path`,
  `mu.executeDeferred`) are modelled by an explicit environment `BakeEnv`
  or by explicit parameters (current frame, playback bounds).
* Python truthiness of a string is emptiness; of an int it is being zero;
  of `None` it is falsiness.  Optional arguments defaulting to `None` are
  `Option` values.
-/

namespace XgenAnimatedMaps

/-- Python 2 `range(a, b)`: the list `[a, a+1, ..., b-1]`, empty when `b <= a`. -/
def pyRange (a b : Int) : List Int :=
  (List.range (b - a).toNat).map (fun i => a + i)

/-- Python `list.index(x)`: index of the first occurrence.  In the source it is
only called after an `x in list` membership check, so the out-of-range value
returned on an absent element is never observed. -/
def pyIndex (l : List Int) (x : Int) : Nat :=
  match l with
  | [] => 0
  | a :: rest => if a == x then 0 else pyIndex rest x + 1

/-- `ProjectSettings` (src/xgenanimatedmaps.py lines 259-287): the settings
store, a dict from setting ids to string values, embedded as an association
list with unique keys. -/
structure ProjectSettings where
  storage : List (String × String)

/-- Dict access `self._storage[id]` as an optional lookup. -/
def ProjectSettings.lookup (s : ProjectSettings) (id : String) : Option String :=
  (s.storage.find? (fun kv => kv.1 == id)).map (fun kv => kv.2)

/-- `ProjectSettings.has` (line 286-287): `id in self._storage and self._storage[id]` —
the key is present and its value is truthy (a non-empty string). -/
def ProjectSettings.has (s : ProjectSettings) (id : String) : Bool :=
  match s.lookup id with
  | some v => !(v == "")
  | none => false

/-- `ProjectSettings.get` (lines 269-275): returns the stored value when
`has(id)` holds (the `len(self._storage)` conjunct of the source is redundant,
since `has` already requires membership), the default otherwise. -/
def ProjectSettings.get (s : ProjectSettings) (id : String) (default_value : String) : String :=
  if s.has id then (s.lookup id).getD default_value else default_value

/-- The required settings of `PtxBaker` (lines 359-360). -/
def required_settings : List String :=
  ["xgenCollection", "xgenDescription", "xgenSequence", "xgenEmitter", "xgenAttribute"]

/-- `XgenAnimSettingsDependant.validate` (lines 301-310): scans the required
settings and fails as soon as one is not `has`. -/
def validate (s : ProjectSettings) : Bool :=
  required_settings.all (fun item => s.has item)

/-- `PtxBaker.cache_is_complete` (lines 430-431): Python 2 `range` is a list,
so this is a list equality between the range enumeration and `cached_frames`
— it is order-sensitive. -/
def cache_is_complete (start_frame end_frame : Int) (cached_frames : List Int) : Bool :=
  pyRange start_frame end_frame == cached_frames

/-- The frame scan order built inside `PtxBaker.cache_get_missing_frame`
(lines 433-441): the range list, rotated to start at the current frame when
the current frame lies inside the range (`frames[index:] + frames[:index]`). -/
def rotated_frames (start_frame end_frame current_frame : Int) : List Int :=
  let frames := pyRange start_frame end_frame
  if frames.contains current_frame then
    let index := pyIndex frames current_frame
    frames.drop index ++ frames.take index
  else frames

/-- `PtxBaker.cache_get_missing_frame` (lines 433-448): the first frame of the
rotated scan order that is not in `cached_frames`, `none` when every frame of
the scan order is cached (`bake_frame` stays `None`). -/
def cache_get_missing_frame (start_frame end_frame current_frame : Int)
    (cached_frames : List Int) : Option Int :=
  (rotated_frames start_frame end_frame current_frame).find?
    (fun item => !(cached_frames.contains item))

/-- Python's substring operator `needle in hay`. -/
def containsSub (needle hay : String) : Bool :=
  let n := needle.toList
  let h := hay.toList
  (List.range (h.length + 1)).any (fun i => n.isPrefixOf (h.drop i))

/-- Helper for `pySplit`, fuelled by the input length so the kernel can reduce
it; every recursive call consumes at least one character whenever the
separator is non-empty (the only way it is used). -/
def pySplitAux (sep : List Char) : Nat → List Char → List Char → List (List Char)
  | 0, acc, s => [acc.reverse ++ s]
  | _fuel+1, acc, [] => [acc.reverse]
  | fuel+1, acc, c :: rest =>
    if sep.isPrefixOf (c :: rest) then
      acc.reverse :: pySplitAux sep fuel [] ((c :: rest).drop sep.length)
    else
      pySplitAux sep fuel (c :: acc) rest

/-- Python `str.split(sep)` with a non-empty separator: split on each
non-overlapping occurrence, scanning left to right. -/
def pySplit (s sep : List Char) : List (List Char) :=
  pySplitAux sep s.length [] s

/-- `XgenAttributeWrapper.get_lines` (line 53-54): `self.value.split('\\n')`.
Note that the source splits on the literal two-character sequence
backslash-`n` (the Python literal is `'\\n'`), not on a newline character. -/
def get_lines (value : String) : List String :=
  (pySplit value.toList ['\\', 'n']).map (fun cs => String.mk cs)

/-- `PtxBaker.get_final_expression` (lines 368-378): iterate the line indices
in reverse (`reversed(range(len(lines)))`), return the first line containing
the token `$a` and break; `result` stays `''` when no line matches.  The
reverse index loop is rendered as `find?` on the reversed line list. -/
def get_final_expression (value : String) : String :=
  match (get_lines value).reverse.find? (fun l => containsSub "$a" l) with
  | some l => l
  | none => ""

/-- Python `a or b` on strings: `b` when `a` is falsy (empty), else `a`. -/
def pyOrStr (a b : String) : String :=
  if a == "" then b else a

/-- Python `a or b` where `a` is an optional int argument: the fallback is
used when `a` is `None` or `0` (both falsy). -/
def pyOrInt (value : Option Int) (fallback : Int) : Int :=
  match value with
  | none => fallback
  | some n => if n == 0 then fallback else n

/-- `PtxBaker.get_expression` (lines 398-399):
`settings.get('xgenExpression', self.get_final_expression() or '$a')`. -/
def get_expression (s : ProjectSettings) (prev_value : String) : String :=
  s.get "xgenExpression" (pyOrStr (get_final_expression prev_value) "$a")

/-- The lazy capture group `(.*?)` of `get_assigned_map`'s pattern followed by
the closing `'`: consume characters up to the first apostrophe; `.` does not
match a newline, and reaching the end of input fails the match. -/
def lazyCaptureAux : List Char → Option (List Char)
  | [] => none
  | c :: rest =>
    if c == '\x27' then some []
    else if c == '\n' then none
    else (lazyCaptureAux rest).map (fun cs => c :: cs)

/-- The literal `=map('` portion of the pattern in `get_assigned_map`. -/
def mapCallToken : List Char := ['=', 'm', 'a', 'p', '(', '\x27']

/-- One attempt of the pattern `^[^#]+=map\(\x27(.*?)\x27` at a fixed split:
`a` is the text matched by `[^#]+` (anchored at the start of the string, so it
must be non-empty and contain no `#`), `rest` must begin with `=map('` and is
followed by the lazy capture. -/
def matchMapAt (a rest : List Char) : Option (List Char) :=
  if !(a.isEmpty) && !(a.contains '#') && mapCallToken.isPrefixOf rest then
    lazyCaptureAux (rest.drop mapCallToken.length)
  else none

/-- Backtracking of the greedy `[^#]+`: try the longest candidate first and
retreat one character at a time, exactly as the regex engine does. -/
def searchMapFrom : Nat → List Char → Option (List Char)
  | 0, _ => none
  | i+1, s =>
    match matchMapAt (s.take (i+1)) (s.drop (i+1)) with
    | some r => some r
    | none => searchMapFrom i s

/-- Helper for `replaceSub`, fuelled by the input length; every recursive call
consumes at least one character whenever the pattern is non-empty. -/
def replaceSubAux (pat rep : List Char) : Nat → List Char → List Char
  | 0, s => s
  | _fuel+1, [] => []
  | fuel+1, c :: rest =>
    if !(pat.isEmpty) && pat.isPrefixOf (c :: rest) then
      rep ++ replaceSubAux pat rep fuel ((c :: rest).drop pat.length)
    else
      c :: replaceSubAux pat rep fuel rest

/-- Python `str.replace(pat, rep)` for a non-empty pattern: replace each
non-overlapping occurrence, scanning left to right. -/
def replaceSub (pat rep s : List Char) : List Char :=
  replaceSubAux pat rep s.length s

/-- The description-root placeholder `$\x7bDESC\x7d` stripped by
`get_assigned_map`. -/
def descToken : List Char := "$\x7bDESC\x7d".toList

/-- `PtxBaker.get_assigned_map` (lines 413-419):
`re.search("^[^#]+=map\(\\'(.*?)\\'", self.attr.value)` followed by
`.group(1).replace('${DESC}', '')`; `None` when the pattern does not match. -/
def get_assigned_map (value : String) : Option String :=
  (searchMapFrom value.toList.length value.toList).map
    (fun cs => String.mk (replaceSub descToken [] cs))

/-- Python truthiness of `get_assigned_map`'s result: `None` and the empty
string are falsy. -/
def truthyOptStr : Option String → Bool
  | some v => !(v == "")
  | none => false

/-- The external collaborators of the baking core: Maya playback bounds
(`cmds.playbackOptions`), the xGen description path (`xg.descriptionPath`),
and the file system as observed by `bake` — `bakeProducesArtifact frame path`
answers `os.path.isfile(path)` for the fixed bake output path after
`cmds.ptexBake` ran at `frame`. -/
structure BakeEnv where
  playbackStart : Int
  playbackEnd : Int
  descriptionPath : String
  bakeProducesArtifact : Int → String → Bool

/-- `PtxBaker.get_emitter` (lines 389-390); the `None` default of
`settings.get` is modelled as `""`, and is only observable before validation. -/
def get_emitter (s : ProjectSettings) : String :=
  s.get "xgenEmitter" ""

/-- `PtxBaker.get_map_path` (lines 404-405):
`'/paintmaps/%s' % settings.get('xgenAttribute')`. -/
def get_map_path (s : ProjectSettings) : String :=
  "/paintmaps/" ++ s.get "xgenAttribute" ""

/-- `PtxBaker.get_map_path_real` (lines 407-408):
`'%s/%s/' % (xg.descriptionPath(...), self.get_map_path())`.  Since
`get_map_path` itself starts with a slash this produces a double slash,
faithfully kept. -/
def get_map_path_real (env : BakeEnv) (s : ProjectSettings) : String :=
  env.descriptionPath ++ "/" ++ get_map_path s ++ "/"

/-- `PtxBaker.get_map_path_bake` (lines 410-411):
`'%s%s.ptx' % (self.get_map_path_real(), self.get_emitter())`. -/
def get_map_path_bake (env : BakeEnv) (s : ProjectSettings) : String :=
  get_map_path_real env s ++ get_emitter s ++ ".ptx"

/-- `PtxBaker.bake` (lines 547-576).  The calls to `cmds.currentTime`, the
`convertSolidTx` pre-step for non-file sources, `cmds.ptexBake` and
`shutil.copy2` are external side effects; their observable consequence inside
`bake` is the `os.path.isfile(path_bake)` test, answered by the environment.
On success the per-frame artifact path `'%s%s.%s.ptx' % (path, emitter,
frame)` is returned, otherwise `result` stays `None`. -/
def bake (env : BakeEnv) (s : ProjectSettings) (frame : Int) : Option String :=
  let emitter := get_emitter s
  let path := get_map_path_real env s
  let path_bake := get_map_path_bake env s
  if env.bakeProducesArtifact frame path_bake then
    some (path ++ emitter ++ "." ++ toString frame ++ ".ptx")
  else
    none

/-- The conditional line appended per frame by `PtxBaker.convert`
(lines 526-533): `'%s ($frame <= %s) {'` with keyword `if` for the start frame
and `else if` otherwise; the `'else {'` branch is taken only when
`frame == end_frame`, which the exclusive loop `range(start_frame, end_frame)`
never produces. -/
def fragment_conditional_line (start_frame end_frame frame : Int) : String :=
  if !(frame == end_frame) then
    (if frame == start_frame then "if" else "else if") ++
      " ($frame <= " ++ toString frame ++ ") \x7b"
  else
    "else \x7b"

/-- The map-reference line appended per frame by `PtxBaker.convert`
(lines 535-537): `'\t$a=map(\x27${DESC}%s/%s.%s.ptx\x27);'` formatted with
`get_map_path`, `get_emitter` and the frame. -/
def fragment_map_line (s : ProjectSettings) (frame : Int) : String :=
  "\t$a=map(\x27$\x7bDESC\x7d" ++ get_map_path s ++ "/" ++ get_emitter s ++
    "." ++ toString frame ++ ".ptx\x27);"

/-- One loop iteration's worth of script text in `PtxBaker.convert`: the
conditional line, the map line and the closing brace, each appended through
`append_line` which suffixes a newline. -/
def fragment (s : ProjectSettings) (start_frame end_frame frame : Int) : String :=
  fragment_conditional_line start_frame end_frame frame ++ "\n" ++
  fragment_map_line s frame ++ "\n" ++
  "\x7d\n"

/-- The fixed banner written by `PtxBaker.convert` (lines 509-519): five
comment lines and one empty `append_line()`. -/
def convertHeader : String :=
  "# This script has been generated by xgen animated maps script.\n" ++
  "# You\x27re free to modify it as you please, just remember to do that with care.\n" ++
  "# You may be surprised by the enormous size of the script, considering the alleged ability to\n" ++
  "# assign multiple expression variables within strings, yet this is the safest way of\n" ++
  "# providing animated maps to xgen channels.\n" ++
  "\n"

/-- The whole body of the bake loop's script output: one `fragment` per frame
of `range(start_frame, end_frame)`, in ascending order. -/
def convertBody (s : ProjectSettings) (start_frame end_frame : Int) : String :=
  String.join ((pyRange start_frame end_frame).map (fragment s start_frame end_frame))

/-- How a `PtxBaker.convert` call ended: one of the two `cmds.warning` early
returns, or a committed script. -/
inductive ConvertResult where
  | warningMissingSettings
  | warningNoMap
  | committed
deriving DecidableEq, Repr

/-- The observable outcome of `PtxBaker.convert`: the way it returned, the
frames for which `self.bake` was invoked (in invocation order) and the values
those calls returned (discarded by the source), the script committed through
`attr.commit()` (`none` when aborted), and the final `cached_frames` list —
`convert` never touches `cached_frames`, so it is passed through unchanged. -/
structure ConvertOutcome where
  result : ConvertResult
  bakedFrames : List Int
  bakeResults : List (Option String)
  script : Option String
  cache : List Int
deriving DecidableEq, Repr

/-- `PtxBaker.convert` (lines 489-545).  Order of operations: `validate`;
`set_attr` (reads the previous attribute script, `prev_value` here);
the `get_assigned_map` truthiness precondition; resolution of the optional
frame bounds via Python `or` against the playback range; `expression :=
self.get_expression()` computed from the previous script before the attribute
is cleared; then the header, the per-frame loop (whose `self.bake(frame)`
result is discarded), and the final `append_line(expression).commit()`.
The progress-bar calls are external UI effects and carry no core state. -/
def convert (env : BakeEnv) (s : ProjectSettings) (prev_value : String)
    (cached_frames : List Int) (opt_start opt_end : Option Int) : ConvertOutcome :=
  if !(validate s) then
    { result := .warningMissingSettings, bakedFrames := [], bakeResults := [],
      script := none, cache := cached_frames }
  else if !(truthyOptStr (get_assigned_map prev_value)) then
    { result := .warningNoMap, bakedFrames := [], bakeResults := [],
      script := none, cache := cached_frames }
  else
    let start_frame := pyOrInt opt_start env.playbackStart
    let end_frame := pyOrInt opt_end env.playbackEnd
    let expression := get_expression s prev_value
    let frames := pyRange start_frame end_frame
    { result := .committed,
      bakedFrames := frames,
      bakeResults := frames.map (fun frame => bake env s frame),
      script := some (convertHeader ++ convertBody s start_frame end_frame ++
        expression ++ "\n"),
      cache := cached_frames }

/-- `PtxBaker.convert_preview` (lines 475-487): one preview tick.  If the
current frame is cached, return; otherwise record it.  The actual bake step is
commented out in the source (line 484, `# self.bake(bake_frame)`) and replaced
by a placeholder print, so the frame is appended to `cached_frames` without
any artifact-existence check — the definition consequently does not depend on
any environment. -/
def convert_preview (current_frame : Int) (cached_frames : List Int) : List Int :=
  if cached_frames.contains current_frame then
    cached_frames
  else
    cached_frames ++ [current_frame]

/-- Python `list.remove(x)` (the body of `invalidate_cache`, lines 457-458):
remove the first occurrence of `x`, raising `ValueError` when `x` is absent. -/
def pyListRemove (l : List Int) (x : Int) : Except String (List Int) :=
  match l with
  | [] => .error "ValueError"
  | a :: rest =>
    if a == x then .ok rest
    else (pyListRemove rest x).map (fun r => a :: r)

/-- The `invalidate_cache` closure registered by `PtxBaker.preview_start`
(lines 457-458): `self.cached_frames.remove(self.get_current_frame())`. -/
def invalidate_cache (cached_frames : List Int) (current_frame : Int) :
    Except String (List Int) :=
  pyListRemove cached_frames current_frame

/-- `BackgroundWorker` state (lines 313-348): `is_busy`, the `_stop` flag
(named `stopFlag` here), and `tickLoops`, the number of deferred
self-rescheduling tick chains launched via `mu.executeDeferred` (line 344) —
each successful `start()` launches exactly one. -/
structure BackgroundWorker where
  is_busy : Bool
  stopFlag : Bool
  tickLoops : Nat
deriving DecidableEq, Repr

/-- `BackgroundWorker.start` (lines 326-344): returns `False` (`some false`)
without further effect when already busy; otherwise sets `is_busy`, schedules
the tick callback once through `mu.executeDeferred`, and falls off the end of
the function, returning Python `None` (`none`). -/
def BackgroundWorker.start (w : BackgroundWorker) : Option Bool × BackgroundWorker :=
  if w.is_busy then
    (some false, w)
  else
    (none, { w with is_busy := true, tickLoops := w.tickLoops + 1 })

/-- `BackgroundWorker.stop` (lines 346-348): clears `is_busy` and raises the
stop flag; the in-flight tick chain observes the flag, clears it and
terminates on its next run. -/
def BackgroundWorker.stop (w : BackgroundWorker) : BackgroundWorker :=
  { w with is_busy := false, stopFlag := true }

/-- The spec's description of the footer fallback, stated independently of
`get_final_expression`'s reverse-scan loop: the last line of the previous
script that contains the token `$a`, if any. -/
def lastTokenLine (value : String) : Option String :=
  ((get_lines value).filter (fun l => containsSub "$a" l)).getLast?

/-- A concrete settings store carrying all five required settings. -/
def testSettings : ProjectSettings :=
  ⟨[("xgenCollection", "col"), ("xgenDescription", "desc"), ("xgenSequence", "seq"),
    ("xgenEmitter", "E"), ("xgenAttribute", "A")]⟩

/-- A concrete settings store missing the attribute id (`xgenAttribute`). -/
def c9Settings : ProjectSettings :=
  ⟨[("xgenCollection", "col"), ("xgenDescription", "desc"), ("xgenSequence", "seq"),
    ("xgenEmitter", "E")]⟩

/-- A concrete previous attribute script: a single line assigning a map, so
the `get_assigned_map` precondition passes and the line contains `$a`. -/
def testPrev : String := "$a=map(\x27$\x7bDESC\x7d/paintmaps/A/E.ptx\x27);"

/-- A concrete environment whose playback range is `[0,3)` and in which every
bake produces its artifact. -/
def testEnv : BakeEnv :=
  { playbackStart := 0, playbackEnd := 3, descriptionPath := "DP",
    bakeProducesArtifact := fun _ _ => true }

/-- A concrete environment in which the bake of frame `1` fails to produce
its artifact while every other frame succeeds. -/
def c4Env : BakeEnv :=
  { playbackStart := 0, playbackEnd := 3, descriptionPath := "DP",
    bakeProducesArtifact := fun frame _ => !(frame == 1) }

/-- The script `convert` compiles for `testSettings` and `testPrev` over
`[0,3)`: the banner, one fragment per frame `0,1,2` with keywords
`if` / `else if` / `else if`, and the footer equal to the previous script's
only `$a` line. -/
def expectedScript : String :=
  "# This script has been generated by xgen animated maps script.\n" ++
  "# You\x27re free to modify it as you please, just remember to do that with care.\n" ++
  "# You may be surprised by the enormous size of the script, considering the alleged ability to\n" ++
  "# assign multiple expression variables within strings, yet this is the safest way of\n" ++
  "# providing animated maps to xgen channels.\n" ++
  "\n" ++
  "if ($frame <= 0) \x7b\n\t$a=map(\x27$\x7bDESC\x7d/paintmaps/A/E.0.ptx\x27);\n\x7d\n" ++
  "else if ($frame <= 1) \x7b\n\t$a=map(\x27$\x7bDESC\x7d/paintmaps/A/E.1.ptx\x27);\n\x7d\n" ++
  "else if ($frame <= 2) \x7b\n\t$a=map(\x27$\x7bDESC\x7d/paintmaps/A/E.2.ptx\x27);\n\x7d\n" ++
  "$a=map(\x27$\x7bDESC\x7d/paintmaps/A/E.ptx\x27);\n"

set_option maxRecDepth 10000

/-- The head of a filtered list is the first element satisfying the
predicate. -/
theorem head?_filter_eq_find? (p : String → Bool) (l : List String) :
    (l.filter p).head? = l.find? p := by
  induction l with
  | nil => rfl
  | cons a l ih =>
    by_cases h : p a <;> simp [List.filter_cons, List.find?_cons, h, ih]

/-- The last element of a filtered list is the first match of the reversed
list: the reverse index scan of `get_final_expression` computes the last
matching line. -/
theorem getLast?_filter_eq_find?_reverse (p : String → Bool) (l : List String) :
    (l.filter p).getLast? = l.reverse.find? p := by
  rw [← List.head?_reverse, ← List.filter_reverse, head?_filter_eq_find?]

/-- `get_final_expression` followed by the `or '$a'` fallback of
`get_expression` computes exactly the last `$a`-line of the previous script,
defaulting to the literal `$a`. -/
theorem final_expression_eq_lastTokenLine (value : String) :
    pyOrStr (get_final_expression value) "$a" = (lastTokenLine value).getD "$a" := by
  unfold get_final_expression lastTokenLine
  rw [getLast?_filter_eq_find?_reverse]
  cases h : (get_lines value).reverse.find? (fun l => containsSub "$a" l) with
  | none => rfl
  | some l =>
    have hp : containsSub "$a" l = true := List.find?_some h
    have hne : (l == "") = false := by
      cases heq : l == "" with
      | false => rfl
      | true =>
        have : l = "" := by simpa using heq
        subst this
        simp [containsSub] at hp
    simp [pyOrStr, hne]

/-- C1 (counterexample): with range `[0,2)` and cache `[1, 0]` — both frames
baked, but in descending order — `cache_is_complete` is `false` (the Python 2
`range` list `[0, 1]` differs from the cache list `[1, 0]`) while
`cache_get_missing_frame` is `none`, so the claimed equivalence "complete iff
no missing frame, regardless of insertion order" fails. -/
theorem c1_counterexample :
    ¬ ((cache_is_complete 0 2 [1, 0] = true) ↔
       (cache_get_missing_frame 0 2 0 [1, 0] = none)) := by
  decide

/-- C1 (amended): only the forward direction holds unconditionally: for every
range, current frame, and cache state, if `cache_is_complete` returns `true`
then `cache_get_missing_frame` returns `none`.  The converse fails whenever
the cache holds all frames of the range in other than ascending order. -/
theorem c1_complete_implies_no_missing (start_frame end_frame current_frame : Int)
    (cached_frames : List Int)
    (h : cache_is_complete start_frame end_frame cached_frames = true) :
    cache_get_missing_frame start_frame end_frame current_frame cached_frames = none := by
  have heq : pyRange start_frame end_frame = cached_frames := by
    simpa [cache_is_complete] using h
  unfold cache_get_missing_frame
  rw [List.find?_eq_none]
  intro x hx
  have hxr : x ∈ pyRange start_frame end_frame := by
    unfold rotated_frames at hx
    simp only at hx
    split at hx
    · rcases List.mem_append.mp hx with h1 | h1
      · exact List.drop_subset _ _ h1
      · exact List.take_subset _ _ h1
    · exact hx
  have hmem : x ∈ cached_frames := heq ▸ hxr
  simp [List.elem_iff, hmem]

/-- C1 (witness): a fully baked ascending cache over `[0,2)` is complete, and
the missing-frame query (with the playhead outside the range) returns `none`. -/
theorem c1_witness :
    cache_is_complete 0 2 [0, 1] = true ∧
    cache_get_missing_frame 0 2 5 [0, 1] = none :=
  ⟨by decide, c1_complete_implies_no_missing 0 2 5 [0, 1] (by decide)⟩

/-- C6: for the range `[0,10)` with current frame `5`, the scan order built by
`cache_get_missing_frame` is the rotation `5,6,7,8,9,0,1,2,3,4`, and on an
empty cache the selector returns frame `5`. -/
theorem c6_rotation_order :
    rotated_frames 0 10 5 = [5, 6, 7, 8, 9, 0, 1, 2, 3, 4] ∧
    cache_get_missing_frame 0 10 5 [] = some 5 := by
  decide

/-- C2 (counterexample): baking frames `0,1,2` over `[0,3)` emits the
conditional keywords `if`, `else if`, `else if` — not `if`, `else if`, `else`
as claimed.  The `else` branch requires `frame == end_frame`, which the
exclusive loop `range(start_frame, end_frame)` never produces, so the final
fragment's conditional line is `else if ($frame <= 2) {` and the compiled
script (shown in full as `expectedScript`) contains no bare `else` fragment. -/
theorem c2_counterexample :
    (convert testEnv testSettings testPrev [] (some 0) (some 3)).script =
      some expectedScript ∧
    (pyRange 0 3).map (fragment_conditional_line 0 3) =
      ["if ($frame <= 0) \x7b", "else if ($frame <= 1) \x7b",
       "else if ($frame <= 2) \x7b"] ∧
    ¬ fragment_conditional_line 0 3 2 = "else \x7b" := by
  decide

/-- C2 (amended): for the batch conversion over `[0,3)` with frames `0,1,2`
baked in ascending order, the compiled script body contains exactly three
conditional fragments whose keywords are, in order, `if`, `else if` and
`else if` (the reserved `else` branch is unreachable since the loop excludes
`end_frame`), each fragment referencing the artifact path of its own frame,
followed by the footer line. -/
theorem c2_compiled_script :
    convert testEnv testSettings testPrev [] (some 0) (some 3) =
      { result := ConvertResult.committed, bakedFrames := [0, 1, 2],
        bakeResults := [some "DP//paintmaps/A/E.0.ptx", some "DP//paintmaps/A/E.1.ptx",
          some "DP//paintmaps/A/E.2.ptx"],
        script := some expectedScript, cache := [] } := by
  decide

/-- C3 (code bug, evaluated at the failing input): a preview tick at current
frame `0` with an empty cache records frame `0` as baked.  `convert_preview`
performs no bake and no artifact-existence check whatsoever — the bake call is
commented out in the source (line 484) and replaced by a placeholder print, so
the definition does not even depend on the file system — contradicting the
claimed invariant that a frame enters the cache only after its artifact was
confirmed to exist. -/
theorem c3_preview_records_unverified_frame :
    convert_preview 0 [] = [0] := by
  decide

/-- C4 (counterexample): in `c4Env` the bake of frame `1` fails to produce its
artifact (`bake` returns `None`), yet the batch conversion over `[0,3)` is not
aborted: frame `2` is still baked (it appears in `bakedFrames` after the
failed frame) and its fragment is still scripted (visible in
`expectedScript`), and the script is committed. -/
theorem c4_counterexample :
    bake c4Env testSettings 1 = none ∧
    convert c4Env testSettings testPrev [] (some 0) (some 3) =
      { result := ConvertResult.committed, bakedFrames := [0, 1, 2],
        bakeResults := [some "DP//paintmaps/A/E.0.ptx", none,
          some "DP//paintmaps/A/E.2.ptx"],
        script := some expectedScript, cache := [] } := by
  decide

/-- C4 (amended): batch-mode bake failures are ignored: `convert` discards
`self.bake`'s return value, so for every environment — in particular one in
which some bake fails to produce or locate its artifact — it invokes `bake`
for every frame of the resolved range, scripts every frame's fragment, and
commits the compiled script. -/
theorem c4_bake_failures_ignored (env : BakeEnv) (s : ProjectSettings)
    (prev_value : String) (cached_frames : List Int) (opt_start opt_end : Option Int)
    (hv : validate s = true)
    (hm : truthyOptStr (get_assigned_map prev_value) = true) :
    (convert env s prev_value cached_frames opt_start opt_end).result =
      ConvertResult.committed ∧
    (convert env s prev_value cached_frames opt_start opt_end).bakedFrames =
      pyRange (pyOrInt opt_start env.playbackStart) (pyOrInt opt_end env.playbackEnd) ∧
    (convert env s prev_value cached_frames opt_start opt_end).script =
      some (convertHeader ++
        convertBody s (pyOrInt opt_start env.playbackStart) (pyOrInt opt_end env.playbackEnd) ++
        get_expression s prev_value ++ "\n") := by
  simp [convert, hv, hm]

/-- C4 (witness): the amended theorem applied in the failing environment
`c4Env`: the preconditions hold and the conversion still commits. -/
theorem c4_witness :
    validate testSettings = true ∧
    truthyOptStr (get_assigned_map testPrev) = true ∧
    (convert c4Env testSettings testPrev [] (some 0) (some 3)).result =
      ConvertResult.committed :=
  ⟨by decide, by decide,
    (c4_bake_failures_ignored c4Env testSettings testPrev [] (some 0) (some 3)
      (by decide) (by decide)).1⟩

/-- C5 (counterexample): invalidating frame `0` on the empty cache — a frame
absent from the cache — does not complete as a no-op: `list.remove` raises
`ValueError` instead of returning the unchanged cache. -/
theorem c5_counterexample :
    invalidate_cache [] 0 = Except.error "ValueError" ∧
    ¬ invalidate_cache [] 0 = Except.ok [] := by
  refine ⟨rfl, fun h => ?_⟩
  rw [show invalidate_cache [] 0 = Except.error "ValueError" from rfl] at h
  exact Except.noConfusion h

/-- C5 (amended): invalidating a frame that is not in the cache raises
`ValueError` (Python `list.remove` on a missing element); it is not a no-op.
Invalidating a cached frame removes its first occurrence. -/
theorem c5_invalidate_absent_raises (cached_frames : List Int) (current_frame : Int)
    (h : cached_frames.contains current_frame = false) :
    invalidate_cache cached_frames current_frame = Except.error "ValueError" := by
  induction cached_frames with
  | nil => rfl
  | cons a rest ih =>
    rw [List.contains_cons] at h
    have h1 : (current_frame == a) = false := by
      cases hq : current_frame == a with
      | false => rfl
      | true => rw [hq] at h; simp at h
    have h2 : rest.contains current_frame = false := by
      cases hq : rest.contains current_frame with
      | false => rfl
      | true => rw [hq] at h; simp at h
    have ha : (a == current_frame) = false := by
      cases hq : a == current_frame with
      | false => rfl
      | true =>
        have : a = current_frame := by simpa using hq
        subst this
        simp at h1
    unfold invalidate_cache pyListRemove
    rw [ha]
    simp only [Bool.false_eq_true, if_false]
    have hrest := ih h2
    unfold invalidate_cache at hrest
    rw [hrest]
    rfl

/-- C5 (witness): the amended theorem applied to the empty cache and frame
`0`. -/
theorem c5_witness :
    ([] : List Int).contains 0 = false ∧
    invalidate_cache [] 0 = Except.error "ValueError" :=
  ⟨by decide, c5_invalidate_absent_raises [] 0 (by decide)⟩

/-- C7: whenever `convert` commits a script, that script is the header and
body followed by exactly one footer line, and the footer equals the
user-supplied override expression when one is set (present and non-empty in
the settings store), otherwise the last line of the previous script that
contains the token `$a`, otherwise the literal token `$a`. -/
theorem c7_footer_rule (env : BakeEnv) (s : ProjectSettings) (prev_value : String)
    (cached_frames : List Int) (opt_start opt_end : Option Int) (sc : String)
    (hsc : (convert env s prev_value cached_frames opt_start opt_end).script = some sc) :
    sc = convertHeader ++
        convertBody s (pyOrInt opt_start env.playbackStart) (pyOrInt opt_end env.playbackEnd) ++
        get_expression s prev_value ++ "\n" ∧
    get_expression s prev_value =
      (if s.has "xgenExpression" then (s.lookup "xgenExpression").getD ""
       else (lastTokenLine prev_value).getD "$a") := by
  constructor
  · unfold convert at hsc
    by_cases hv : validate s
    · by_cases hm : truthyOptStr (get_assigned_map prev_value)
      · simp [hv, hm] at hsc
        exact hsc.symm
      · simp [hv, hm] at hsc
    · simp [hv] at hsc
  · unfold get_expression ProjectSettings.get
    by_cases hh : s.has "xgenExpression"
    · simp only [hh, if_true]
      rcases hlook : s.lookup "xgenExpression" with _ | v
      · unfold ProjectSettings.has at hh
        rw [hlook] at hh
        simp at hh
      · simp
    · simp only [hh, if_false, Bool.false_eq_true]
      exact final_expression_eq_lastTokenLine prev_value

/-- C7 (witness): the footer rule applied to the committed script of the
concrete conversion over `[0,3)`: no override is set and the previous script's
only `$a`-line becomes the footer. -/
theorem c7_witness :
    (expectedScript = convertHeader ++ convertBody testSettings 0 3 ++
      get_expression testSettings testPrev ++ "\n") ∧
    get_expression testSettings testPrev =
      (if testSettings.has "xgenExpression" then
        (testSettings.lookup "xgenExpression").getD ""
       else (lastTokenLine testPrev).getD "$a") :=
  c7_footer_rule testEnv testSettings testPrev [] (some 0) (some 3) expectedScript
    (by decide)

/-- C8: calling `start()` while the worker is already running returns `False`
and starts no second tick stream: from an idle worker with no tick chain,
after two `start()` calls without an intervening `stop()`, the second call
returns `False`, the worker stays busy, and exactly one tick chain was
launched. -/
theorem c8_double_start (w : BackgroundWorker) (h_idle : w.is_busy = false)
    (h_fresh : w.tickLoops = 0) :
    ((w.start.2).start).1 = some false ∧
    ((w.start.2).start).2.is_busy = true ∧
    ((w.start.2).start).2.tickLoops = 1 := by
  simp [BackgroundWorker.start, h_idle, h_fresh]

/-- C8 (witness): the double-start property at the freshly constructed idle
worker. -/
theorem c8_witness :
    (((⟨false, false, 0⟩ : BackgroundWorker).start.2).start).1 = some false ∧
    (((⟨false, false, 0⟩ : BackgroundWorker).start.2).start).2.is_busy = true ∧
    (((⟨false, false, 0⟩ : BackgroundWorker).start.2).start).2.tickLoops = 1 :=
  c8_double_start ⟨false, false, 0⟩ rfl rfl

/-- C9: when the setting `xgenAttribute` is absent or empty, `convert` fails
validation and returns the missing-settings warning before any side effect:
no bake is invoked, no script is committed, and the frame cache is unchanged
(in particular an empty cache remains empty). -/
theorem c9_validation_aborts (env : BakeEnv) (s : ProjectSettings)
    (prev_value : String) (cached_frames : List Int) (opt_start opt_end : Option Int)
    (h : s.has "xgenAttribute" = false) :
    convert env s prev_value cached_frames opt_start opt_end =
      { result := ConvertResult.warningMissingSettings, bakedFrames := [],
        bakeResults := [], script := none, cache := cached_frames } := by
  have hv : validate s = false := by
    simp [validate, required_settings, h]
  simp [convert, hv]

/-- C9 (witness): a settings store with every required key but `xgenAttribute`
makes `convert` abort with the validation warning, leaving the empty cache
empty. -/
theorem c9_witness :
    c9Settings.has "xgenAttribute" = false ∧
    convert testEnv c9Settings testPrev [] none none =
      { result := ConvertResult.warningMissingSettings, bakedFrames := [],
        bakeResults := [], script := none, cache := [] } :=
  ⟨by decide, c9_validation_aborts testEnv c9Settings testPrev [] none none (by decide)⟩

/-- C10: passing an explicit frame bound of `0` to `convert` behaves exactly
like omitting the bound — the Python `or` fallback treats `0` as falsy, so
the corresponding playback bound is used instead. -/
theorem c10_zero_bound_fallback (env : BakeEnv) (s : ProjectSettings)
    (prev_value : String) (cached_frames : List Int) (opt_other : Option Int) :
    convert env s prev_value cached_frames (some 0) opt_other =
      convert env s prev_value cached_frames none opt_other ∧
    convert env s prev_value cached_frames opt_other (some 0) =
      convert env s prev_value cached_frames opt_other none := by
  have h0 : ∀ fallback : Int, pyOrInt (some 0) fallback = pyOrInt none fallback := by
    intro fallback
    simp [pyOrInt]
  constructor <;> simp [convert, h0]

end XgenAnimatedMaps
